import Mathlib

/-! Verification development for the tab-coordination and realtime-synchronization
core of the class-collaboration repository: the WebSocketProvider in
apps/web/src/lib/websocket.tsx, and the slide-clicker debounce logic in
apps/web/src/app/staff/session/id/clicker/page.tsx.

The TypeScript source is shallowly embedded: every React ref and closure variable
of WebSocketProvider becomes a field of `Ctx`; every event handler or timer
callback becomes a function `Ctx → Ctx` (paired with the list of BroadcastChannel
messages it posts); the browser event loop becomes the labelled step relation
`Reachable`.  Time is passed explicitly (`Date.now()` becomes a `now : Nat`
argument, milliseconds).  JavaScript dynamic payloads become inductives whose
constructors correspond one-to-one to the string names the code dispatches on;
JavaScript record objects become functions into `Option`. -/

namespace CC

abbrev SlideId := String
abbrev OptionId := String
abbrev TabId := String
abbrev Timestamp := Nat

/-- Payload of a VOTE_UPDATE message: `Record(optionId, count)`, carried verbatim. -/
abbrev VoteMap := List (OptionId × Nat)

/-- Questions are opaque JSON values to this core (`any[]` in the source); modelled
as opaque tokens. -/
abbrev Question := String

/-- `Record(slideId, Record(optionId, count))`: the `voteResults` React state.
A JavaScript object is a finite map; modelled as a function into `Option`. -/
abbrev VoteResults := SlideId → Option VoteMap

def emptyVoteResults : VoteResults := fun _ => none

/-- StateUpdatePayload from the shared package (all fields optional in TS), plus the
`voteCounts` field that handleAblyMessage reads off the same object. -/
structure StatePayload where
  sessionId : Option String
  currentSlideId : Option (Option SlideId)
  isResultsVisible : Option Bool
  isPresentationActive : Option Bool
  isBlackout : Option Bool
  showResults : Option Bool
  lostCount : Option Nat
  questions : Option (List Question)
  voteCounts : Option VoteResults

/-- JavaScript object spread `(...prev, ...upd)`: a field present on `upd`
overwrites the one on `prev`. -/
def mergeState (prev upd : StatePayload) : StatePayload where
  sessionId := upd.sessionId <|> prev.sessionId
  currentSlideId := upd.currentSlideId <|> prev.currentSlideId
  isResultsVisible := upd.isResultsVisible <|> prev.isResultsVisible
  isPresentationActive := upd.isPresentationActive <|> prev.isPresentationActive
  isBlackout := upd.isBlackout <|> prev.isBlackout
  showResults := upd.showResults <|> prev.showResults
  lostCount := upd.lostCount <|> prev.lostCount
  questions := upd.questions <|> prev.questions
  voteCounts := upd.voteCounts <|> prev.voteCounts

/-- The per-context StateReplica: the React state pieces mutated by
handleAblyMessage (state, questions, voteResults, activeParticipants,
lastSlideUpdate). -/
structure Replica where
  state : Option StatePayload
  questions : List Question
  voteResults : VoteResults
  activeParticipants : Nat
  lastSlideUpdate : Timestamp

def initReplica : Replica where
  state := none
  questions := []
  voteResults := emptyVoteResults
  activeParticipants := 0
  lastSlideUpdate := 0

/-- An inbound upstream (Ably) event, one constructor per message name the
dispatch chain of handleAblyMessage tests.  For STATE_UPDATE the code first
computes `stateData = payload?.payload || payload`; the constructor carries that
already-resolved value (`none` models a falsy stateData).  `otherEvent` models
any message name matching no branch. -/
inductive AblyEvent
  | stateUpdate (stateData : Option StatePayload)
  | voteUpdate (slideId : SlideId) (results : VoteMap)
  | qaUpdate (questions : Option (List Question))
  | participantCountUpdate (count : Option Nat)
  | slidesUpdate
  | otherEvent (name : String)

/-- The non-buffered core of handleAblyMessage: how one upstream event mutates the
replica.  Mirrors the if/else-if chain on the message name. -/
def applyEvent (r : Replica) (e : AblyEvent) (now : Timestamp) : Replica :=
  match e with
  | .stateUpdate stateData =>
    match stateData with
    | none => r
    | some sd =>
      let r := { r with state := some (match r.state with
                  | none => sd
                  | some prev => mergeState prev sd) }
      let r := match sd.questions with
        | some qs => { r with questions := qs }
        | none => r
      match sd.voteCounts with
      | some vc => { r with voteResults := vc }
      | none => r
  | .voteUpdate slideId results =>
      { r with voteResults := fun k => if k = slideId then some results else r.voteResults k }
  | .qaUpdate qs =>
      match qs with
      | some qs => { r with questions := qs }
      | none => r
  | .participantCountUpdate c =>
      { r with activeParticipants := c.getD 0 }
  | .slidesUpdate => { r with lastSlideUpdate := now }
  | .otherEvent _ => r

/-- An entry of messageBufferRef: name+data plus Date.now() at arrival. -/
structure BufferedEvent where
  ev : AblyEvent
  timestamp : Timestamp

/-- The currentState object attached to LEADER_ANNOUNCE / STATE_SYNC messages:
always built from the three refs stateRef/voteResultsRef/questionsRef
(state may be null; the other two are always-truthy objects). -/
structure Snapshot where
  state : Option StatePayload
  voteResults : VoteResults
  questions : List Question

inductive MsgType
  | ABLY_MESSAGE
  | REQUEST_LEADER
  | LEADER_ANNOUNCE
  | LEADER_PING
  | LEADER_PONG
  | LEADER_GOODBYE
  | STATE_SYNC
deriving DecidableEq

/-- The TabMessage envelope posted on the BroadcastChannel (all payload fields
optional, as in the TS interface). -/
structure TabMessage where
  type : MsgType
  sessionId : Option String
  tabId : Option TabId
  message : Option AblyEvent
  timestamp : Option Timestamp
  leaderSince : Option Timestamp
  currentState : Option Snapshot

/-- Timing constants of websocket.tsx. -/
def LEADER_PING_INTERVAL : Nat := 5000
def LEADER_PING_TIMEOUT : Nat := 3000
def ELECTION_BASE_DELAY : Nat := 100
def ELECTION_RANDOM_DELAY : Nat := 400
/-- The 200 ms response timer armed right after posting the initial REQUEST_LEADER. -/
def LEADER_REQUEST_TIMEOUT : Nat := 200
/-- The `now - lastLeaderTimestamp < 1000` suppression window inside becomeLeader. -/
def LEADER_EVIDENCE_WINDOW : Nat := 1000
/-- The 300 ms wait between re-requesting leadership and self-promoting. -/
def PROMOTE_DELAY : Nat := 300

/-- `TAB_ID.split('').reduce((a, b) => a + b.charCodeAt(0), 0)`. -/
def tabHash (id : TabId) : Nat := id.data.foldl (fun a c => a + c.toNat) 0

/-- `ELECTION_BASE_DELAY + (tabHash % ELECTION_RANDOM_DELAY)`. -/
def electionDelay (id : TabId) : Nat := ELECTION_BASE_DELAY + tabHash id % ELECTION_RANDOM_DELAY

/-- JavaScript `x || dflt` on an optional number: 0 is falsy. -/
def jsOrTime (x : Option Timestamp) (dflt : Timestamp) : Timestamp :=
  match x with
  | some t => if t = 0 then dflt else t
  | none => dflt

/-- One open browser context running WebSocketProvider: every ref and closure
variable of the mount effect becomes a field.  The Ably clients ever created by
this context are recorded in `conns` (id, still-open flag) so that the
single-connection property is about real connection objects, not about an
Option being an Option; `client` is the live reference (ablyClientRef). -/
structure Ctx where
  sessionId : String
  role : String
  tabId : TabId
  isMounted : Bool
  hasBus : Bool
  isLeader : Bool
  leaderSince : Timestamp
  lastLeaderTimestamp : Timestamp
  currentLeaderTabId : Option TabId
  currentLeaderSince : Timestamp
  isInFailover : Bool
  messageBuffer : List BufferedEvent
  replica : Replica
  isConnected : Bool
  isConnecting : Bool
  connectionError : Option String
  client : Option Nat
  conns : List (Nat × Bool)
  nextConnId : Nat
  leaderCheckAt : Option Timestamp
  pingIntervalArmed : Bool
  pongTimeoutArmed : Bool
  electionAt : Option Timestamp
  promoteAt : Option Timestamp
  processBufferedArmed : Bool
  pendingFetch : Bool

def snapshotOf (r : Replica) : Snapshot where
  state := r.state
  voteResults := r.voteResults
  questions := r.questions

/-- Receiving a currentState snapshot: `state` only if truthy (non-null); the
voteResults object and questions array are always truthy, hence always applied. -/
def applySnapshot (r : Replica) (cs : Snapshot) : Replica :=
  let r := match cs.state with
    | some s => { r with state := some s }
    | none => r
  { r with voteResults := cs.voteResults, questions := cs.questions }

/-- A control message carrying only type, sessionId and tabId
(REQUEST_LEADER, LEADER_PING, LEADER_PONG, LEADER_GOODBYE). -/
def ctrlMsg (ty : MsgType) (sid : String) (tid : TabId) : TabMessage where
  type := ty
  sessionId := some sid
  tabId := some tid
  message := none
  timestamp := none
  leaderSince := none
  currentState := none

/-- A LEADER_ANNOUNCE built from the current context (with or without the
currentState snapshot, matching the three posting sites in the source). -/
def mkAnnounce (c : Ctx) (now : Timestamp) (cs : Option Snapshot) : TabMessage where
  type := .LEADER_ANNOUNCE
  sessionId := some c.sessionId
  tabId := some c.tabId
  message := none
  timestamp := some now
  leaderSince := some c.leaderSince
  currentState := cs

/-- The ABLY_MESSAGE rebroadcast a leader posts for every upstream event. -/
def mkAblyRelay (c : Ctx) (e : AblyEvent) (now : Timestamp) : TabMessage where
  type := .ABLY_MESSAGE
  sessionId := some c.sessionId
  tabId := none
  message := some e
  timestamp := some now
  leaderSince := none
  currentState := none

/-- handleAblyMessage: drop if unmounted, buffer if in the failover window,
otherwise apply to the replica. -/
def handleAblyMessage (c : Ctx) (e : AblyEvent) (now : Timestamp) : Ctx :=
  if c.isMounted = false then c
  else if c.isInFailover then
    { c with messageBuffer := c.messageBuffer ++ [⟨e, now⟩] }
  else
    { c with replica := applyEvent c.replica e now }

/-- processBufferedMessages: clear the buffer and the failover flag, then replay
every buffered event in arrival order through handleAblyMessage. -/
def processBufferedMessages (c : Ctx) (now : Timestamp) : Ctx :=
  let buffer := c.messageBuffer
  let c := { c with messageBuffer := [], isInFailover := false }
  buffer.foldl (fun c m => handleAblyMessage c m.ev now) c

/-- createAblyConnection: `if (client) return;` then builds a new Ably.Realtime,
stores it in the refs, registers handlers and kicks off fetchInitialState. -/
def createAblyConnection (c : Ctx) : Ctx :=
  if c.client.isSome then c
  else
    { c with client := some c.nextConnId
           , conns := c.conns ++ [(c.nextConnId, true)]
           , nextConnId := c.nextConnId + 1
           , pendingFetch := true }

/-- `client.close()` plus nulling the refs (shared by stepDown and the cleanup). -/
def closeClient (c : Ctx) : Ctx :=
  match c.client with
  | none => c
  | some cid =>
    { c with client := none
           , conns := c.conns.map (fun p => if p.1 = cid then (p.1, false) else p) }

/-- startLeaderHealthCheck: no-op for a leader, otherwise (re)arms the
LEADER_PING interval. -/
def startLeaderHealthCheck (c : Ctx) : Ctx :=
  if c.isLeader then c else { c with pingIntervalArmed := true }

/-- becomeLeader: no-op if already leader or if leader evidence (announce/pong)
was recorded less than 1000 ms ago; otherwise claim leadership now, cancel the
follower health-check timers, and open the upstream connection. -/
def becomeLeader (c : Ctx) (now : Timestamp) : Ctx :=
  if c.isLeader then c
  else if now - c.lastLeaderTimestamp < LEADER_EVIDENCE_WINDOW then c
  else
    let c := { c with isLeader := true
                    , leaderSince := now
                    , pingIntervalArmed := false
                    , pongTimeoutArmed := false }
    createAblyConnection c

/-- stepDown: drop the leader flag, record the new leader, close our Ably client,
and start expecting pings to be answered. -/
def stepDown (c : Ctx) (newLeaderTabId : Option TabId) (newLeaderSince : Timestamp) : Ctx :=
  if c.isLeader = false then c
  else
    let c := { c with isLeader := false
                    , currentLeaderTabId := newLeaderTabId
                    , currentLeaderSince := newLeaderSince }
    let c := closeClient c
    startLeaderHealthCheck c

/-- The `connected` handler of the Ably client (present only while a client
exists): clear the error flags, schedule the buffered-message replay if a
failover was in progress, and announce leadership with the current replica as
snapshot. -/
def onConnected (c : Ctx) (now : Timestamp) : Ctx × List TabMessage :=
  match c.client with
  | none => (c, [])
  | some _ =>
    let c := { c with isConnected := true, isConnecting := false, connectionError := none }
    let c := if c.isInFailover then { c with processBufferedArmed := true } else c
    if c.hasBus then
      (c, [mkAnnounce c now (some (snapshotOf c.replica))])
    else
      (c, [])

/-- The `disconnected` handler. -/
def onConnDisconnected (c : Ctx) : Ctx :=
  match c.client with
  | none => c
  | some _ => { c with isConnected := false }

/-- The `failed` handler: surface a user-visible connection error, touch nothing
else. -/
def onConnFailed (c : Ctx) : Ctx :=
  match c.client with
  | none => c
  | some _ =>
    { c with isConnected := false
           , isConnecting := false
           , connectionError := some "Connection failed." }

/-- The channel.subscribe handler: apply the event locally and, if we are the
leader with a bus, rebroadcast it as ABLY_MESSAGE. -/
def onUpstreamMessage (c : Ctx) (e : AblyEvent) (now : Timestamp) : Ctx × List TabMessage :=
  match c.client with
  | none => (c, [])
  | some _ =>
    let c := handleAblyMessage c e now
    if c.hasBus && c.isLeader then
      (c, [mkAblyRelay c e now])
    else
      (c, [])

/-- Enter the buffering failover window and arm the randomized-delay election
timer (shared by the LEADER_GOODBYE branch and the pong-timeout callback). -/
def scheduleElection (c : Ctx) (now : Timestamp) : Ctx :=
  { c with isInFailover := true, electionAt := some (now + electionDelay c.tabId) }

/-- The tail of the LEADER_ANNOUNCE branch that every adopting context runs
(directly as a follower, or after stepping down): record the new leader,
cancel the initial election timer, leave the failover window discarding the
buffer, take the announced snapshot (or refetch), and start the health check. -/
def announceAdopt (c : Ctx) (msg : TabMessage) (newLeaderSince : Timestamp) : Ctx :=
  let c := { c with currentLeaderTabId := msg.tabId
                  , currentLeaderSince := newLeaderSince
                  , isLeader := false
                  , isConnected := true
                  , isConnecting := false }
  let c := if c.isInFailover then { c with isInFailover := false, messageBuffer := [] } else c
  let c := { c with leaderCheckAt := none }
  let c := match msg.currentState with
    | some cs => { c with replica := applySnapshot c.replica cs }
    | none => { c with pendingFetch := true }
  startLeaderHealthCheck c

/-- The LEADER_ANNOUNCE branch of bc.onmessage (the `msg.tabId !== TAB_ID` guard
is checked by the caller).  Records the leader evidence timestamp, resolves
split-brain by the earlier `since`, and either adopts the announcer or
re-announces (without snapshot) and returns. -/
def onAnnounce (c : Ctx) (msg : TabMessage) (now : Timestamp) : Ctx × List TabMessage :=
  let c := { c with lastLeaderTimestamp := jsOrTime msg.timestamp now }
  let newLeaderSince := jsOrTime msg.leaderSince now
  if c.isLeader then
    if newLeaderSince < c.leaderSince then
      let c := stepDown c msg.tabId newLeaderSince
      (announceAdopt c msg newLeaderSince, [])
    else
      (c, [mkAnnounce c now none])
  else
    (announceAdopt c msg newLeaderSince, [])

/-- bc.onmessage: ignore other sessions, then dispatch on the message type
exactly as the source's if/else-if chain does. -/
def onBusMessage (c : Ctx) (msg : TabMessage) (now : Timestamp) : Ctx × List TabMessage :=
  if msg.sessionId ≠ some c.sessionId then (c, [])
  else
    match msg.type with
    | .ABLY_MESSAGE =>
      match msg.message with
      | some e => (handleAblyMessage c e now, [])
      | none => (c, [])
    | .LEADER_ANNOUNCE =>
      if msg.tabId = some c.tabId then (c, [])
      else onAnnounce c msg now
    | .REQUEST_LEADER =>
      if c.isLeader then
        (c, [mkAnnounce c now (some (snapshotOf c.replica))])
      else
        (c, [])
    | .LEADER_PING =>
      if c.isLeader then
        (c, [ctrlMsg .LEADER_PONG c.sessionId c.tabId])
      else
        (c, [])
    | .LEADER_PONG =>
      if msg.tabId = some c.tabId then (c, [])
      else ({ c with lastLeaderTimestamp := now, pongTimeoutArmed := false }, [])
    | .LEADER_GOODBYE =>
      if msg.tabId = some c.tabId then (c, [])
      else (scheduleElection c now, [])
    | .STATE_SYNC =>
      if c.isLeader = false then
        match msg.currentState with
        | some cs => ({ c with replica := applySnapshot c.replica cs }, [])
        | none => (c, [])
      else
        (c, [])

/-- The initial 200 ms election timer callback: `if (!isMountedRef.current)
return; becomeLeader();`. -/
def leaderCheckFire (c : Ctx) (now : Timestamp) : Ctx :=
  match c.leaderCheckAt with
  | none => c
  | some _ =>
    let c := { c with leaderCheckAt := none }
    if c.isMounted = false then c
    else becomeLeader c now

/-- One tick of the LEADER_PING interval: post a ping and arm the pong timeout. -/
def pingFire (c : Ctx) : Ctx × List TabMessage :=
  if c.pingIntervalArmed = false then (c, [])
  else if c.hasBus = false || c.isLeader then (c, [])
  else
    ({ c with pongTimeoutArmed := true },
     [ctrlMsg .LEADER_PING c.sessionId c.tabId])

/-- The pong-timeout callback: leader went silent, so enter the failover window
and arm the randomized-delay election. -/
def pongTimeoutFire (c : Ctx) (now : Timestamp) : Ctx :=
  if c.pongTimeoutArmed = false then c
  else
    let c := { c with pongTimeoutArmed := false }
    if c.isMounted = false || c.isLeader then c
    else scheduleElection c now

/-- The randomized-delay election callback: re-request leadership and arm the
300 ms self-promotion timer. -/
def electionFire (c : Ctx) (now : Timestamp) : Ctx × List TabMessage :=
  match c.electionAt with
  | none => (c, [])
  | some _ =>
    let c := { c with electionAt := none }
    if c.isMounted = false || c.isLeader then (c, [])
    else
      ({ c with promoteAt := some (now + PROMOTE_DELAY) },
       if c.hasBus then [ctrlMsg .REQUEST_LEADER c.sessionId c.tabId] else [])

/-- The 300 ms self-promotion callback. -/
def promoteFire (c : Ctx) (now : Timestamp) : Ctx :=
  match c.promoteAt with
  | none => c
  | some _ =>
    let c := { c with promoteAt := none }
    if c.isMounted = false || c.isLeader then c
    else becomeLeader c now

/-- The `setTimeout(processBufferedMessages, 100)` scheduled on `connected`. -/
def processBufferedFire (c : Ctx) (now : Timestamp) : Ctx :=
  if c.processBufferedArmed = false then c
  else processBufferedMessages { c with processBufferedArmed := false } now

/-- Completion of a fetchInitialState round-trip (external API): replaces state
and, when the response carries them, questions and voteCounts. -/
def fetchCompleted (c : Ctx) (data : StatePayload) : Ctx :=
  if c.isMounted = false then c
  else
    let r := { c.replica with state := some data }
    let r := match data.questions with
      | some qs => { r with questions := qs }
      | none => r
    let r := match data.voteCounts with
      | some vc => { r with voteResults := vc }
      | none => r
    { c with replica := r, pendingFetch := false }

def mkGoodbye (c : Ctx) : TabMessage := ctrlMsg .LEADER_GOODBYE c.sessionId c.tabId

/-- The cleanup returned by the mount effect: unmount, post LEADER_GOODBYE if we
are the leader, clear the three named timers (the anonymous election and
promotion timers are not cleared — their callbacks check isMounted), close the
Ably client and the BroadcastChannel, and drop leadership. -/
def cleanup (c : Ctx) : Ctx × List TabMessage :=
  let msgs := if c.isLeader && c.hasBus then [mkGoodbye c] else []
  let c := { c with isMounted := false
                  , leaderCheckAt := none
                  , pingIntervalArmed := false
                  , pongTimeoutArmed := false }
  let c := closeClient c
  ({ c with hasBus := false, isLeader := false }, msgs)

/-- The ordered primitive effects of the cleanup, used to state that the goodbye
is posted before the connection is closed. -/
inductive Effect
  | publish (m : TabMessage)
  | clearTimers
  | closeConn (cid : Nat)
  | closeBus

def cleanupEffects (c : Ctx) : List Effect :=
  (if c.isLeader && c.hasBus then [Effect.publish (mkGoodbye c)] else [])
    ++ [Effect.clearTimers]
    ++ (match c.client with
        | some cid => [Effect.closeConn cid]
        | none => [])
    ++ (if c.hasBus then [Effect.closeBus] else [])

/-- The pristine state of a freshly mounted context. -/
def baseCtx (sid role tid : String) (hasBus : Bool) : Ctx where
  sessionId := sid
  role := role
  tabId := tid
  isMounted := true
  hasBus := hasBus
  isLeader := false
  leaderSince := 0
  lastLeaderTimestamp := 0
  currentLeaderTabId := none
  currentLeaderSince := 0
  isInFailover := false
  messageBuffer := []
  replica := initReplica
  isConnected := false
  isConnecting := true
  connectionError := none
  client := none
  conns := []
  nextConnId := 0
  leaderCheckAt := none
  pingIntervalArmed := false
  pongTimeoutArmed := false
  electionAt := none
  promoteAt := none
  processBufferedArmed := false
  pendingFetch := false

/-- Mounting the provider: with a BroadcastChannel, post REQUEST_LEADER and arm
the 200 ms response timer; without one, become leader immediately. -/
def startContext (sid role tid : String) (hasBus : Bool) (t0 : Timestamp) :
    Ctx × List TabMessage :=
  let c := baseCtx sid role tid hasBus
  if hasBus then
    ({ c with leaderCheckAt := some (t0 + LEADER_REQUEST_TIMEOUT) },
     [ctrlMsg .REQUEST_LEADER sid tid])
  else
    (becomeLeader c t0, [])

/-- The handlers and timer callbacks the browser event loop can run on one
context, each with the time at which it runs. -/
inductive Label
  | busMsg (msg : TabMessage) (now : Timestamp)
  | upstream (e : AblyEvent) (now : Timestamp)
  | connected (now : Timestamp)
  | disconnected
  | connFailed
  | leaderCheck (now : Timestamp)
  | ping
  | pongTimeout (now : Timestamp)
  | election (now : Timestamp)
  | promote (now : Timestamp)
  | processBuffered (now : Timestamp)
  | fetchDone (data : StatePayload)
  | unmount

def step (c : Ctx) (l : Label) : Ctx × List TabMessage :=
  match l with
  | .busMsg m now => if c.hasBus then onBusMessage c m now else (c, [])
  | .upstream e now => onUpstreamMessage c e now
  | .connected now => onConnected c now
  | .disconnected => (onConnDisconnected c, [])
  | .connFailed => (onConnFailed c, [])
  | .leaderCheck now => (leaderCheckFire c now, [])
  | .ping => pingFire c
  | .pongTimeout now => (pongTimeoutFire c now, [])
  | .election now => electionFire c now
  | .promote now => (promoteFire c now, [])
  | .processBuffered now => (processBufferedFire c now, [])
  | .fetchDone data => (fetchCompleted c data, [])
  | .unmount => cleanup c

/-- States a single context can be in after any interleaving of handler runs. -/
inductive Reachable : Ctx → Prop
  | init (sid role tid : String) (hasBus : Bool) (t0 : Timestamp) :
      Reachable (startContext sid role tid hasBus t0).1
  | next (c : Ctx) (l : Label) : Reachable c → Reachable (step c l).1

/-- The connection bookkeeping a reachable context always satisfies. -/
structure ConnInv (c : Ctx) : Prop where
  bound : ∀ p ∈ c.conns, p.1 < c.nextConnId
  nodup : (c.conns.map Prod.fst).Nodup
  openOne : ∀ p ∈ c.conns, p.2 = true → c.client = some p.1

/-- The three connection-bookkeeping fields, bundled for frame lemmas. -/
def connFields (c : Ctx) : Option Nat × List (Nat × Bool) × Nat :=
  (c.client, c.conns, c.nextConnId)

/-- The BroadcastChannel name a context opens:
backtick-template `ably-session-(sessionId)-(role)`. -/
def channelName (sessionId role : String) : String :=
  "ably-session-" ++ sessionId ++ "-" ++ role

/-- A context viewed only as a bus endpoint. -/
structure BusEndpoint where
  tabId : TabId
  sessionId : String
  role : String

def subscribedChannel (b : BusEndpoint) : String := channelName b.sessionId b.role

/-- BroadcastChannel platform semantics: a posted message reaches exactly the
other contexts that opened a channel with the same name. -/
def busDelivers (sender receiver : BusEndpoint) : Prop :=
  sender.tabId ≠ receiver.tabId ∧ subscribedChannel sender = subscribedChannel receiver

instance (s r : BusEndpoint) : Decidable (busDelivers s r) := by
  unfold busDelivers
  infer_instance

/-! Concrete inputs used to instantiate the theorems. -/

/-- A context freshly mounted for session s1 at epoch-time 1000000 ms. -/
def exCtx : Ctx := (startContext "s1" "staff" "tabA" true 1000000).1

def exVoteEvent : AblyEvent := .voteUpdate "slide1" [("opt1", 5)]

/-- exCtx caught in a failover window with one buffered VOTE_UPDATE. -/
def exBufferedCtx : Ctx :=
  { exCtx with isInFailover := true, messageBuffer := [⟨exVoteEvent, 1000050⟩] }

def exSnapshot : Snapshot where
  state := none
  voteResults := emptyVoteResults
  questions := []

/-- A LEADER_ANNOUNCE from another tab with an earlier claim, carrying a snapshot. -/
def exAnnounce : TabMessage where
  type := .LEADER_ANNOUNCE
  sessionId := some "s1"
  tabId := some "tabB"
  message := none
  timestamp := some 1000100
  leaderSince := some 999000
  currentState := some exSnapshot

def exPong : TabMessage := ctrlMsg .LEADER_PONG "s1" "tabB"

def exGoodbye : TabMessage := ctrlMsg .LEADER_GOODBYE "s1" "tabB"

/-- exCtx after its 200 ms election timer fired unopposed: a leader holding a
connection. -/
def exLeaderCtx : Ctx := leaderCheckFire exCtx 1000200

namespace Clicker

/-- Wait before posting the pending slide to the server:
`setTimeout(..., 150)` in sendSlideToServer. -/
def SLIDE_DEBOUNCE_MS : Nat := 150

structure Slide where
  id : SlideId
  isHidden : Bool

/-- `slides.filter(s => !s.isHidden)` — navigation works over visible slides. -/
def visibleSlides (slides : List Slide) : List Slide :=
  slides.filter (fun s => !s.isHidden)

/-- The clicker page state: the current index, the optimistic local slide id
(state.currentSlideId after updateState), the pending-target ref, its single
trailing debounce timer (absolute fire time) and the network requests already
issued by publicSetCurrentSlide, in order. -/
structure ClickerState where
  currentIndex : Int
  localSlideId : Option SlideId
  pendingSlide : Option SlideId
  fireAt : Option Timestamp
  lastLocalNav : Timestamp
  requests : List SlideId

/-- sendSlideToServer: remember the latest target, cancel the previous timer
and arm a fresh 150 ms one. -/
def sendSlideToServer (c : ClickerState) (slideId : SlideId) (now : Timestamp) : ClickerState :=
  { c with pendingSlide := some slideId, fireAt := some (now + SLIDE_DEBOUNCE_MS) }

/-- The debounce timer firing: issue one request for the pending target. -/
def debounceFire (c : ClickerState) : ClickerState :=
  match c.fireAt with
  | none => c
  | some _ =>
    match c.pendingSlide with
    | some sid =>
      { c with requests := c.requests ++ [sid], pendingSlide := none, fireAt := none }
    | none => { c with fireAt := none }

/-- handleNext: bounds check, mark the local navigation time, move the index,
update local state immediately, then debounce the server update. -/
def handleNext (vs : List Slide) (now : Timestamp) (c : ClickerState) : ClickerState :=
  if c.currentIndex ≥ (vs.length : Int) - 1 then c
  else
    match vs[(c.currentIndex + 1).toNat]? with
    | none => c
    | some nextSlide =>
      let c := { c with lastLocalNav := now
                      , currentIndex := c.currentIndex + 1
                      , localSlideId := some nextSlide.id }
      sendSlideToServer c nextSlide.id now

/-- handlePrev, symmetric to handleNext. -/
def handlePrev (vs : List Slide) (now : Timestamp) (c : ClickerState) : ClickerState :=
  if c.currentIndex ≤ 0 then c
  else
    match vs[(c.currentIndex - 1).toNat]? with
    | none => c
    | some prevSlide =>
      let c := { c with lastLocalNav := now
                      , currentIndex := c.currentIndex - 1
                      , localSlideId := some prevSlide.id }
      sendSlideToServer c prevSlide.id now

/-- One slide-navigation call (`true` = next, `false` = prev). -/
def navCall (vs : List Slide) (dir : Bool) (now : Timestamp) (c : ClickerState) : ClickerState :=
  if dir then handleNext vs now c else handlePrev vs now c

/-- The slide a navigation call would move to (none at the boundary, where the
handler returns without doing anything). -/
def navTarget (vs : List Slide) (dir : Bool) (c : ClickerState) : Option SlideId :=
  if dir then
    if c.currentIndex ≥ (vs.length : Int) - 1 then none
    else (vs[(c.currentIndex + 1).toNat]?).map Slide.id
  else
    if c.currentIndex ≤ 0 then none
    else (vs[(c.currentIndex - 1).toNat]?).map Slide.id

/-- A burst of rapid navigation calls: each call actually navigates (hits no
boundary) and lands inside the debounce window of the previous one (before the
armed timer would fire), so the timer never fires mid-burst.  The list records
the successive targets. -/
inductive Burst (vs : List Slide) : ClickerState → List SlideId → ClickerState → Prop
  | nil (c : ClickerState) : Burst vs c [] c
  | cons (c c' : ClickerState) (t : SlideId) (ts : List SlideId) (dir : Bool) (now : Timestamp)
      (htgt : navTarget vs dir c = some t)
      (hwin : ∀ fa, c.fireAt = some fa → now < fa)
      (hrest : Burst vs (navCall vs dir now c) ts c') :
      Burst vs c (t :: ts) c'

/-- Concrete slide deck and clicker state for instantiating the theorems. -/
def exSlides : List Slide := [⟨"a", false⟩, ⟨"b", false⟩, ⟨"c", false⟩]

def exClicker : ClickerState where
  currentIndex := 0
  localSlideId := some "a"
  pendingSlide := none
  fireAt := none
  lastLocalNav := 0
  requests := []

end Clicker

/-! Theorems. -/

/-- C9: applying a vote-tally update event for slide `s` replaces the entire
tally map stored for `s` with the aggregated counts carried by the event (it
never increments existing counts), and leaves the tally maps of every other
slide and all other StateReplica fields unchanged. -/
theorem C9_vote_update_replaces_tally (r : Replica) (s : SlideId) (m : VoteMap)
    (now : Timestamp) :
    (applyEvent r (.voteUpdate s m) now).voteResults s = some m
    ∧ (∀ s', s' ≠ s → (applyEvent r (.voteUpdate s m) now).voteResults s' = r.voteResults s')
    ∧ (applyEvent r (.voteUpdate s m) now).state = r.state
    ∧ (applyEvent r (.voteUpdate s m) now).questions = r.questions
    ∧ (applyEvent r (.voteUpdate s m) now).activeParticipants = r.activeParticipants
    ∧ (applyEvent r (.voteUpdate s m) now).lastSlideUpdate = r.lastSlideUpdate := by
  refine ⟨?_, ?_, rfl, rfl, rfl, rfl⟩
  · simp [applyEvent]
  · intro s' hne
    simp [applyEvent, hne]

/-- Witness for C9 at a concrete replica, slide and tally map. -/
theorem C9_vote_update_replaces_tally_witness :
    (applyEvent initReplica (.voteUpdate "slide1" [("opt1", 5)]) 7).voteResults "slide1"
      = some [("opt1", 5)]
    ∧ (applyEvent initReplica (.voteUpdate "slide1" [("opt1", 5)]) 7).voteResults "slide2"
      = initReplica.voteResults "slide2" := by
  have h := C9_vote_update_replaces_tally initReplica "slide1" [("opt1", 5)] 7
  exact ⟨h.1, h.2.1 "slide2" (by decide)⟩

/-- C8: when the upstream connection of the current leader signals `failed`, the
context records a user-visible connection error and keeps its leadership: the
leader flag is untouched, the connection object is not torn down, no failover
window is entered, no election is scheduled, and nothing (in particular no
LEADER_GOODBYE) is published on the bus. -/
theorem C8_failed_keeps_leadership (c : Ctx) :
    (onConnFailed c).isLeader = c.isLeader
    ∧ (onConnFailed c).client = c.client
    ∧ (onConnFailed c).conns = c.conns
    ∧ (onConnFailed c).isInFailover = c.isInFailover
    ∧ (onConnFailed c).electionAt = c.electionAt
    ∧ (step c .connFailed).2 = []
    ∧ (c.client.isSome = true → (onConnFailed c).connectionError = some "Connection failed.") := by
  unfold onConnFailed step
  cases h : c.client <;> simp [h]

/-- Witness for C8 at a concrete leader context holding a connection. -/
theorem C8_failed_keeps_leadership_witness :
    exLeaderCtx.client.isSome = true
    ∧ (onConnFailed exLeaderCtx).connectionError = some "Connection failed."
    ∧ (onConnFailed exLeaderCtx).isLeader = exLeaderCtx.isLeader := by
  have h := C8_failed_keeps_leadership exLeaderCtx
  exact ⟨rfl, h.2.2.2.2.2.2 rfl, h.1⟩

/-- C1 counterexample: the BroadcastChannel name embeds the context's role, so
two contexts for the same session s1 but with different roles (staff vs
student) open different channels; a control message posted by the staff
context is not delivered to the student context, although the claim requires
delivery to every other context of the session whatever its role. -/
theorem C1_counterexample :
    ¬ busDelivers ⟨"tabA", "s1", "staff"⟩ ⟨"tabB", "s1", "student"⟩ := by
  decide

/-- C1 (amended): a message published on the bus is delivered exactly to the
other contexts for the same session that also have the same role — the channel
is scoped per (session, role), not per session. -/
theorem C1_amended_bus_scoped_by_role (a b : BusEndpoint)
    (hs : a.sessionId = b.sessionId) :
    busDelivers a b ↔ (a.tabId ≠ b.tabId ∧ a.role = b.role) := by
  unfold busDelivers subscribedChannel channelName
  rw [hs]
  constructor
  · rintro ⟨h1, h2⟩
    refine ⟨h1, ?_⟩
    have hd := congrArg String.data h2
    simp only [String.data_append] at hd
    have := List.append_cancel_left hd
    exact String.ext this
  · rintro ⟨h1, h2⟩
    exact ⟨h1, by rw [h2]⟩

/-- Witness for C1 (amended): same session, same role, different tabs — the bus
does deliver. -/
theorem C1_amended_bus_scoped_by_role_witness :
    busDelivers ⟨"tabA", "s1", "staff"⟩ ⟨"tabB", "s1", "staff"⟩ :=
  (C1_amended_bus_scoped_by_role ⟨"tabA", "s1", "staff"⟩ ⟨"tabB", "s1", "staff"⟩ rfl).mpr
    ⟨by decide, rfl⟩

/-- C7: a leader shutting down cleanly publishes LEADER_GOODBYE before closing
its connection (the cleanup's effect order), and a context receiving
LEADER_GOODBYE from another tab immediately enters the buffering failover
window and arms the randomized-delay election — whose delay is far below the
ping-interval-plus-pong-timeout a silent death would cost. -/
theorem C7_goodbye_fast_failover (cL cR : Ctx) (cid : Nat) (msg : TabMessage)
    (now : Timestamp)
    (hl : cL.isLeader = true) (hb : cL.hasBus = true) (hc : cL.client = some cid)
    (hty : msg.type = .LEADER_GOODBYE) (hsid : msg.sessionId = some cR.sessionId)
    (htab : msg.tabId ≠ some cR.tabId) :
    cleanupEffects cL = [Effect.publish (mkGoodbye cL), Effect.clearTimers,
                         Effect.closeConn cid, Effect.closeBus]
    ∧ (cleanup cL).2 = [mkGoodbye cL]
    ∧ (onBusMessage cR msg now).1 = scheduleElection cR now
    ∧ (scheduleElection cR now).isInFailover = true
    ∧ (scheduleElection cR now).electionAt = some (now + electionDelay cR.tabId)
    ∧ electionDelay cR.tabId < LEADER_PING_INTERVAL + LEADER_PING_TIMEOUT := by
  refine ⟨?_, ?_, ?_, rfl, rfl, ?_⟩
  · simp [cleanupEffects, hl, hb, hc]
  · simp [cleanup, hl, hb]
  · simp [onBusMessage, hsid, hty, htab]
  · have hmod : tabHash cR.tabId % ELECTION_RANDOM_DELAY < ELECTION_RANDOM_DELAY :=
      Nat.mod_lt _ (by decide)
    unfold electionDelay ELECTION_BASE_DELAY ELECTION_RANDOM_DELAY
      LEADER_PING_INTERVAL LEADER_PING_TIMEOUT at *
    omega

/-- Witness for C7 at a concrete departing leader and a concrete receiver. -/
theorem C7_goodbye_fast_failover_witness :
    (cleanup exLeaderCtx).2 = [mkGoodbye exLeaderCtx]
    ∧ (onBusMessage exCtx exGoodbye 1000300).1.isInFailover = true := by
  have h := C7_goodbye_fast_failover exLeaderCtx exCtx 0 exGoodbye 1000300
    rfl rfl rfl rfl rfl (by decide)
  refine ⟨h.2.1, ?_⟩
  rw [h.2.2.1]
  exact h.2.2.2.1

/-- Replaying a list of events through handleAblyMessage on a mounted context
outside the failover window just folds applyEvent over the replica. -/
theorem foldl_handleAblyMessage (L : List BufferedEvent) (c : Ctx) (now : Timestamp)
    (hm : c.isMounted = true) (hf : c.isInFailover = false) :
    L.foldl (fun c m => handleAblyMessage c m.ev now) c
      = { c with replica := L.foldl (fun r m => applyEvent r m.ev now) c.replica } := by
  induction L generalizing c with
  | nil => simp
  | cons a L ih =>
    simp only [List.foldl_cons]
    have h1 : handleAblyMessage c a.ev now = { c with replica := applyEvent c.replica a.ev now } := by
      simp [handleAblyMessage, hm, hf]
    rw [h1, ih { c with replica := applyEvent c.replica a.ev now } hm hf]

/-- C2 (amended): when a context resolves its role by self-promoting, the
buffered events are applied: once the new leader's connection connects, the
replay of the buffer is scheduled, and processBufferedMessages applies every
buffered event to the StateReplica in original arrival order, emptying the
buffer and leaving the failover window.  (When the context instead resolves to
Follower via LEADER_ANNOUNCE the buffer is discarded, see the
counterexample.) -/
theorem C2_amended_buffer_replayed_in_order (c : Ctx) (now : Timestamp)
    (hm : c.isMounted = true) :
    (c.isInFailover = true → c.client.isSome = true →
      (onConnected c now).1.processBufferedArmed = true)
    ∧ processBufferedMessages c now
        = { c with isInFailover := false
                 , messageBuffer := []
                 , replica := c.messageBuffer.foldl (fun r m => applyEvent r m.ev now) c.replica } := by
  constructor
  · intro hf hcl
    unfold onConnected
    cases h : c.client with
    | none => rw [h] at hcl; simp at hcl
    | some cid =>
      simp only [hf, if_true]
      split <;> rfl
  · unfold processBufferedMessages
    exact foldl_handleAblyMessage c.messageBuffer _ now hm rfl

/-- Witness for C2 (amended) at a concrete buffering context. -/
theorem C2_amended_buffer_replayed_in_order_witness :
    (processBufferedMessages exBufferedCtx 1000300).replica.voteResults "slide1"
      = some [("opt1", 5)]
    ∧ (processBufferedMessages exBufferedCtx 1000300).messageBuffer = [] := by
  have h := C2_amended_buffer_replayed_in_order exBufferedCtx 1000300 rfl
  rw [h.2]
  exact ⟨rfl, rfl⟩

/-- C2 counterexample: a context in the failover window holding one buffered
VOTE_UPDATE for slide1 receives a LEADER_ANNOUNCE and resolves to Follower; the
code clears the buffer without applying it (messageBuffer := []), and the
replica never sees the buffered tally — its voteResults for slide1 is the
announced snapshot's (none), not the buffered event's, so the buffered event
was dropped, contradicting the claim. -/
theorem C2_counterexample :
    (onBusMessage exBufferedCtx exAnnounce 1000150).1.isInFailover = false
    ∧ (onBusMessage exBufferedCtx exAnnounce 1000150).1.messageBuffer = []
    ∧ (onBusMessage exBufferedCtx exAnnounce 1000150).1.replica.voteResults "slide1"
        ≠ some [("opt1", 5)] := by
  refine ⟨rfl, rfl, ?_⟩
  decide

namespace Clicker

/-- A successful navigation call moves the index, immediately updates the local
slide id, records the pending target and (re)arms the single trailing debounce
timer — and issues no network request. -/
theorem navCall_char (vs : List Slide) (dir : Bool) (now : Timestamp) (c : ClickerState)
    (t : SlideId) (h : navTarget vs dir c = some t) :
    navCall vs dir now c
      = { c with currentIndex := if dir then c.currentIndex + 1 else c.currentIndex - 1
               , localSlideId := some t
               , pendingSlide := some t
               , fireAt := some (now + SLIDE_DEBOUNCE_MS)
               , lastLocalNav := now } := by
  cases dir with
  | true =>
    unfold navTarget at h
    simp only [if_true] at h
    unfold navCall handleNext
    split at h
    · simp at h
    · rename_i hlt
      rcases Option.map_eq_some'.mp h with ⟨s, hs, hid⟩
      simp only [if_neg hlt, hs, sendSlideToServer, hid]
      simp
  | false =>
    unfold navTarget at h
    simp only [if_neg, Bool.false_eq_true, if_false] at h
    unfold navCall handlePrev
    split at h
    · simp at h
    · rename_i hlt
      rcases Option.map_eq_some'.mp h with ⟨s, hs, hid⟩
      simp only [if_neg hlt, hs, sendSlideToServer, hid]
      simp

/-- Along a nonempty burst: no request is issued, and the pending target, timer
and local slide id track the last call's target. -/
theorem burst_char (vs : List Slide) (c0 c1 : ClickerState) (ts : List SlideId)
    (t : SlideId) (hb : Burst vs c0 ts c1) (hlast : ts.getLast? = some t) :
    c1.requests = c0.requests
    ∧ c1.pendingSlide = some t
    ∧ c1.localSlideId = some t
    ∧ c1.fireAt.isSome = true := by
  induction hb with
  | nil c => simp at hlast
  | cons c c' t' ts' dir now htgt hwin hrest ih =>
    rw [navCall_char vs dir now c t' htgt] at hrest ih
    cases ts' with
    | nil =>
      cases hrest
      simp at hlast
      subst hlast
      exact ⟨rfl, rfl, rfl, rfl⟩
    | cons t2 rest =>
      have hlast' : (t2 :: rest).getLast? = some t := by
        rw [List.getLast?_cons_cons] at hlast
        exact hlast
      have := ih hlast'
      exact ⟨this.1, this.2.1, this.2.2.1, this.2.2.2⟩

/-- C4: for every burst of k ≥ 1 rapid slide-navigation calls whose gaps all
fall inside the debounce window, no request is issued during the burst and
exactly one network request is issued when the trailing timer fires, carrying
the burst's final target slide id; intermediate targets are never transmitted,
while the local state (index and currentSlideId) is updated on every call. -/
theorem C4_burst_sends_one_request_with_final_target
    (vs : List Slide) (c0 c1 : ClickerState) (ts : List SlideId) (t : SlideId)
    (hb : Burst vs c0 ts c1) (hlast : ts.getLast? = some t) :
    c1.requests = c0.requests
    ∧ c1.localSlideId = some t
    ∧ (debounceFire c1).requests = c0.requests ++ [t]
    ∧ (debounceFire c1).pendingSlide = none
    ∧ debounceFire (debounceFire c1) = debounceFire c1
    ∧ (∀ c dir now t', navTarget vs dir c = some t' →
        (navCall vs dir now c).localSlideId = some t'
        ∧ (navCall vs dir now c).requests = c.requests) := by
  obtain ⟨hreq, hpend, hloc, hfa⟩ := burst_char vs c0 c1 ts t hb hlast
  obtain ⟨fa, hfa'⟩ := Option.isSome_iff_exists.mp hfa
  have hfire : debounceFire c1
      = { c1 with requests := c1.requests ++ [t], pendingSlide := none, fireAt := none } := by
    unfold debounceFire
    rw [hfa', hpend]
  refine ⟨hreq, hloc, ?_, ?_, ?_, ?_⟩
  · rw [hfire, hreq]
  · rw [hfire]
  · rw [hfire]
    unfold debounceFire
    rfl
  · intro c dir now t' h
    rw [navCall_char vs dir now c t' h]
    exact ⟨rfl, rfl⟩

/-- Witness for C4: a one-call burst from slide a to slide b. -/
theorem C4_burst_sends_one_request_with_final_target_witness :
    (debounceFire (navCall exSlides true 5 exClicker)).requests = ["b"]
    ∧ (navCall exSlides true 5 exClicker).localSlideId = some "b" := by
  have hb : Burst exSlides exClicker ["b"] (navCall exSlides true 5 exClicker) :=
    Burst.cons exClicker (navCall exSlides true 5 exClicker) "b" [] true 5
      (by decide) (by intro fa h; cases h) (Burst.nil _)
  have h := C4_burst_sends_one_request_with_final_target exSlides exClicker
    (navCall exSlides true 5 exClicker) ["b"] "b" hb rfl
  refine ⟨?_, h.2.1⟩
  rw [h.2.2.1]
  rfl

end Clicker

/-! Projection lemmas shared by the election-protocol theorems. -/

theorem closeClient_client (c : Ctx) : (closeClient c).client = none := by
  cases h : c.client <;> simp [closeClient, h]

theorem closeClient_frame (c : Ctx) :
    (closeClient c).isLeader = c.isLeader
    ∧ (closeClient c).leaderSince = c.leaderSince
    ∧ (closeClient c).lastLeaderTimestamp = c.lastLeaderTimestamp
    ∧ (closeClient c).replica = c.replica
    ∧ (closeClient c).currentLeaderTabId = c.currentLeaderTabId
    ∧ (closeClient c).currentLeaderSince = c.currentLeaderSince
    ∧ (closeClient c).isInFailover = c.isInFailover
    ∧ (closeClient c).messageBuffer = c.messageBuffer := by
  cases h : c.client <;> simp [closeClient, h]

theorem startHealth_frame (c : Ctx) :
    (startLeaderHealthCheck c).isLeader = c.isLeader
    ∧ (startLeaderHealthCheck c).leaderSince = c.leaderSince
    ∧ (startLeaderHealthCheck c).lastLeaderTimestamp = c.lastLeaderTimestamp
    ∧ (startLeaderHealthCheck c).replica = c.replica
    ∧ (startLeaderHealthCheck c).currentLeaderTabId = c.currentLeaderTabId
    ∧ (startLeaderHealthCheck c).currentLeaderSince = c.currentLeaderSince
    ∧ (startLeaderHealthCheck c).client = c.client := by
  unfold startLeaderHealthCheck
  split <;> simp

/-- Behaviour of stepDown on an actual leader. -/
theorem stepDown_char (c : Ctx) (a : Option TabId) (b : Timestamp)
    (hl : c.isLeader = true) :
    (stepDown c a b).isLeader = false
    ∧ (stepDown c a b).client = none
    ∧ (stepDown c a b).replica = c.replica
    ∧ (stepDown c a b).currentLeaderTabId = a
    ∧ (stepDown c a b).currentLeaderSince = b
    ∧ (stepDown c a b).leaderSince = c.leaderSince
    ∧ (stepDown c a b).lastLeaderTimestamp = c.lastLeaderTimestamp
    ∧ (stepDown c a b).isInFailover = c.isInFailover := by
  unfold stepDown
  rw [if_neg (by simp [hl])]
  unfold startLeaderHealthCheck closeClient
  cases hcl : c.client <;> simp [hcl]

/-- Behaviour of the follower-adoption tail of the LEADER_ANNOUNCE branch when
the announce carries a snapshot. -/
theorem announceAdopt_char (c : Ctx) (msg : TabMessage) (ns : Timestamp) (cs : Snapshot)
    (hcs : msg.currentState = some cs) :
    (announceAdopt c msg ns).isLeader = false
    ∧ (announceAdopt c msg ns).currentLeaderTabId = msg.tabId
    ∧ (announceAdopt c msg ns).currentLeaderSince = ns
    ∧ (announceAdopt c msg ns).client = c.client
    ∧ (announceAdopt c msg ns).replica = applySnapshot c.replica cs
    ∧ (announceAdopt c msg ns).lastLeaderTimestamp = c.lastLeaderTimestamp
    ∧ (announceAdopt c msg ns).isInFailover = false
    ∧ (announceAdopt c msg ns).messageBuffer
        = (if c.isInFailover then [] else c.messageBuffer) := by
  unfold announceAdopt startLeaderHealthCheck
  rw [hcs]
  by_cases hf : c.isInFailover <;> simp [hf]

/-- lastLeaderTimestamp is untouched by the adoption tail even without a
snapshot. -/
theorem announceAdopt_lastLeader (c : Ctx) (msg : TabMessage) (ns : Timestamp) :
    (announceAdopt c msg ns).lastLeaderTimestamp = c.lastLeaderTimestamp := by
  unfold announceAdopt startLeaderHealthCheck
  cases msg.currentState <;> by_cases hf : c.isInFailover <;> simp [hf]

/-- becomeLeader is a no-op within the 1000 ms leader-evidence window. -/
theorem becomeLeader_suppressed (c : Ctx) (now : Timestamp)
    (h : now - c.lastLeaderTimestamp < LEADER_EVIDENCE_WINDOW) :
    becomeLeader c now = c := by
  unfold becomeLeader
  by_cases hb : c.isLeader = true
  · simp [hb]
  · simp [hb, h]

theorem leaderCheckFire_suppressed (c : Ctx) (now : Timestamp)
    (h : now - c.lastLeaderTimestamp < LEADER_EVIDENCE_WINDOW) :
    (leaderCheckFire c now).isLeader = c.isLeader
    ∧ (leaderCheckFire c now).client = c.client := by
  unfold leaderCheckFire
  cases hc : c.leaderCheckAt
  · exact ⟨rfl, rfl⟩
  · simp only
    split
    · exact ⟨rfl, rfl⟩
    · have heq := becomeLeader_suppressed { c with leaderCheckAt := none } now (by exact h)
      rw [heq]
      exact ⟨rfl, rfl⟩

theorem promoteFire_suppressed (c : Ctx) (now : Timestamp)
    (h : now - c.lastLeaderTimestamp < LEADER_EVIDENCE_WINDOW) :
    (promoteFire c now).isLeader = c.isLeader
    ∧ (promoteFire c now).client = c.client := by
  unfold promoteFire
  cases hc : c.promoteAt
  · exact ⟨rfl, rfl⟩
  · simp only
    split
    · exact ⟨rfl, rfl⟩
    · have heq := becomeLeader_suppressed { c with promoteAt := none } now (by exact h)
      rw [heq]
      exact ⟨rfl, rfl⟩

/-- Arithmetic helper (stated over plain Nat so that omega applies). -/
theorem sub_lt_window (now t w : Nat) (hw : 0 < w) (h : now < t + w) : now - t < w := by omega

/-- Arithmetic helper (stated over plain Nat so that omega applies). -/
theorem not_sub_lt_window (now t w : Nat) (h : t + w ≤ now) : ¬ now - t < w := by omega

/-- C10: a context never self-promotes within 1000 ms of evidence of another
live leader.  Receiving a LEADER_ANNOUNCE (carrying send time t) or a
LEADER_PONG at time t records t as the leader-evidence timestamp, becomeLeader
is a no-op whenever that evidence is less than 1000 ms old, and the suppression
takes effect on every promotion path: the initial 200 ms election timeout
(leaderCheckFire) and the 300 ms post-goodbye / post-ping-timeout promotion
(promoteFire, used by both schedules). -/
theorem C10_leader_evidence_suppresses_promotion
    (c : Ctx) (msg : TabMessage) (t now : Timestamp)
    (hsid : msg.sessionId = some c.sessionId)
    (htab : msg.tabId ≠ some c.tabId)
    (hty : (msg.type = .LEADER_ANNOUNCE ∧ msg.timestamp = some t ∧ t ≠ 0)
           ∨ msg.type = .LEADER_PONG)
    (hnow : now < t + LEADER_EVIDENCE_WINDOW) :
    (onBusMessage c msg t).1.lastLeaderTimestamp = t
    ∧ (∀ c₂ : Ctx, ∀ n₂ : Timestamp,
        n₂ - c₂.lastLeaderTimestamp < LEADER_EVIDENCE_WINDOW → becomeLeader c₂ n₂ = c₂)
    ∧ (leaderCheckFire (onBusMessage c msg t).1 now).isLeader
        = (onBusMessage c msg t).1.isLeader
    ∧ (leaderCheckFire (onBusMessage c msg t).1 now).client
        = (onBusMessage c msg t).1.client
    ∧ (promoteFire (onBusMessage c msg t).1 now).isLeader
        = (onBusMessage c msg t).1.isLeader
    ∧ (promoteFire (onBusMessage c msg t).1 now).client
        = (onBusMessage c msg t).1.client := by
  have hl : (onBusMessage c msg t).1.lastLeaderTimestamp = t := by
    rcases hty with ⟨h1, h2, h3⟩ | h1
    · simp only [onBusMessage, hsid, ne_eq, not_true_eq_false, if_false, h1]
      rw [if_neg htab]
      unfold onAnnounce
      simp only [h2, jsOrTime, if_neg h3]
      split
      · rename_i hld
        split
        · rw [announceAdopt_lastLeader]
          exact (stepDown_char { c with lastLeaderTimestamp := t } msg.tabId _ hld).2.2.2.2.2.2.1
        · rfl
      · rw [announceAdopt_lastLeader]
    · simp only [onBusMessage, hsid, ne_eq, not_true_eq_false, if_false, h1]
      rw [if_neg htab]
  have hsupp : now - (onBusMessage c msg t).1.lastLeaderTimestamp < LEADER_EVIDENCE_WINDOW := by
    rw [hl]
    exact sub_lt_window now t LEADER_EVIDENCE_WINDOW (by decide) hnow
  obtain ⟨hc1, hc2⟩ := leaderCheckFire_suppressed _ now hsupp
  obtain ⟨hp1, hp2⟩ := promoteFire_suppressed _ now hsupp
  exact ⟨hl, fun c₂ n₂ h => becomeLeader_suppressed c₂ n₂ h, hc1, hc2, hp1, hp2⟩

/-- Witness for C10: a fresh context receives a LEADER_PONG at 1000100 and its
election timer fires 100 ms later — becomeLeader does nothing. -/
theorem C10_leader_evidence_suppresses_promotion_witness :
    (onBusMessage exCtx exPong 1000100).1.lastLeaderTimestamp = 1000100
    ∧ becomeLeader (onBusMessage exCtx exPong 1000100).1 1000200
        = (onBusMessage exCtx exPong 1000100).1 := by
  have h := C10_leader_evidence_suppresses_promotion exCtx exPong 1000100 1000200
    rfl (by decide) (Or.inr rfl) (by decide)
  refine ⟨h.1, h.2.1 _ 1000200 ?_⟩
  rw [h.1]
  decide

/-- What the 200 ms election timer does when it fires on a mounted,
non-leading, connectionless context with no leader evidence in the last
1000 ms: full self-promotion. -/
theorem leaderCheckFire_promotes (c : Ctx) (now : Timestamp)
    (harm : c.leaderCheckAt.isSome = true)
    (hm : c.isMounted = true)
    (hl : c.isLeader = false)
    (hcl : c.client = none)
    (hfresh : c.lastLeaderTimestamp + LEADER_EVIDENCE_WINDOW ≤ now) :
    leaderCheckFire c now
      = { c with leaderCheckAt := none
               , isLeader := true
               , leaderSince := now
               , pingIntervalArmed := false
               , pongTimeoutArmed := false
               , client := some c.nextConnId
               , conns := c.conns ++ [(c.nextConnId, true)]
               , nextConnId := c.nextConnId + 1
               , pendingFetch := true } := by
  obtain ⟨d, hd⟩ := Option.isSome_iff_exists.mp harm
  unfold leaderCheckFire
  rw [hd]
  simp only [hm, Bool.true_eq_false, if_false]
  unfold becomeLeader
  rw [if_neg (by simp [hl])]
  rw [if_neg (not_sub_lt_window now c.lastLeaderTimestamp LEADER_EVIDENCE_WINDOW hfresh)]
  unfold createAblyConnection
  rw [if_neg (by simp [hcl])]

/-- C6 (amended): on start a context publishes REQUEST_LEADER and arms a 200 ms
response timer; if, when the timer fires, neither a LEADER_ANNOUNCE nor a
LEADER_PONG from another context has been received within the last 1000 ms
(leader-evidence window), the context self-promotes: sets its claim's since to
now, opens the upstream connection, and — once that connection reaches
connected — publishes LEADER_ANNOUNCE carrying its current StateReplica as the
snapshot.  (The original claim required only the absence of LEADER_ANNOUNCE;
a recent LEADER_PONG also suppresses the promotion, see the counterexample.) -/
theorem C6_amended_timer_promotion (c : Ctx) (now now2 : Timestamp)
    (sid role tid : String) (t0 : Timestamp)
    (harm : c.leaderCheckAt.isSome = true)
    (hm : c.isMounted = true)
    (hl : c.isLeader = false)
    (hcl : c.client = none)
    (hb : c.hasBus = true)
    (hfresh : c.lastLeaderTimestamp + LEADER_EVIDENCE_WINDOW ≤ now) :
    (startContext sid role tid true t0).2 = [ctrlMsg .REQUEST_LEADER sid tid]
    ∧ (startContext sid role tid true t0).1.leaderCheckAt = some (t0 + LEADER_REQUEST_TIMEOUT)
    ∧ (leaderCheckFire c now).isLeader = true
    ∧ (leaderCheckFire c now).leaderSince = now
    ∧ (leaderCheckFire c now).client = some c.nextConnId
    ∧ (c.nextConnId, true) ∈ (leaderCheckFire c now).conns
    ∧ (∃ m, (onConnected (leaderCheckFire c now) now2).2 = [m]
         ∧ m.type = .LEADER_ANNOUNCE
         ∧ m.tabId = some c.tabId
         ∧ m.leaderSince = some now
         ∧ m.currentState = some (snapshotOf c.replica)) := by
  have heq := leaderCheckFire_promotes c now harm hm hl hcl hfresh
  refine ⟨rfl, rfl, ?_, ?_, ?_, ?_, ?_⟩
  · rw [heq]
  · rw [heq]
  · rw [heq]
  · rw [heq]
    simp
  · rw [heq]
    unfold onConnected
    simp only [hb, if_true]
    split <;> exact ⟨_, rfl, rfl, rfl, rfl, rfl⟩

/-- Witness for C6 (amended): the fresh example context's timer fires at
1000200 with no leader evidence ever received. -/
theorem C6_amended_timer_promotion_witness :
    (leaderCheckFire exCtx 1000200).isLeader = true
    ∧ (leaderCheckFire exCtx 1000200).client = some 0 := by
  have h := C6_amended_timer_promotion exCtx 1000200 1000250 "s1" "staff" "tabA" 1000000
    rfl rfl rfl rfl rfl (by decide)
  exact ⟨h.2.2.1, h.2.2.2.2.1⟩

/-- C6 counterexample: a freshly started context receives a LEADER_PONG (not a
LEADER_ANNOUNCE) from another tab at 1000100; when its 200 ms election timer
fires at 1000200 it does NOT self-promote (leader flag stays false, no upstream
connection is opened), although the claim — conditioned only on the absence of
LEADER_ANNOUNCE — requires promotion here. -/
theorem C6_counterexample :
    (onBusMessage exCtx exPong 1000100).1.leaderCheckAt.isSome = true
    ∧ (leaderCheckFire (onBusMessage exCtx exPong 1000100).1 1000200).isLeader = false
    ∧ (leaderCheckFire (onBusMessage exCtx exPong 1000100).1 1000200).client = none := by
  exact ⟨rfl, rfl, rfl⟩

/-- C3: split-brain resolution.  Part 1: a leader with claim since = t2 that
receives a LEADER_ANNOUNCE from another tab carrying an earlier claim t1 < t2
(with snapshot) steps down — its leader flag is cleared, its upstream client is
closed — becomes a Follower under the t1 claim, adopts the announced snapshot
into its StateReplica, and publishes nothing.  Part 2: a leader with claim
since = t1 that receives the competing t2 claim ignores it — it stays leader
with claim t1, its client and replica untouched — and re-announces its own
claim (without snapshot) to correct the peer. -/
theorem C3_split_brain_oldest_claim_wins
    (cA cB : Ctx) (msgA msgB : TabMessage) (snap : Snapshot)
    (t1 t2 nowA nowB : Timestamp)
    (hBl : cB.isLeader = true) (hBs : cB.leaderSince = t2)
    (hA1 : msgA.type = .LEADER_ANNOUNCE) (hA2 : msgA.sessionId = some cB.sessionId)
    (hA3 : ¬ msgA.tabId = some cB.tabId)
    (hA4 : msgA.leaderSince = some t1) (ht1 : t1 ≠ 0)
    (hA5 : msgA.currentState = some snap)
    (hlt : t1 < t2)
    (hAl : cA.isLeader = true) (hAs : cA.leaderSince = t1)
    (hB1 : msgB.type = .LEADER_ANNOUNCE) (hB2 : msgB.sessionId = some cA.sessionId)
    (hB3 : ¬ msgB.tabId = some cA.tabId)
    (hB4 : msgB.leaderSince = some t2) (ht2 : t2 ≠ 0) :
    ((onBusMessage cB msgA nowA).1.isLeader = false
     ∧ (onBusMessage cB msgA nowA).1.client = none
     ∧ (onBusMessage cB msgA nowA).1.currentLeaderTabId = msgA.tabId
     ∧ (onBusMessage cB msgA nowA).1.currentLeaderSince = t1
     ∧ (onBusMessage cB msgA nowA).1.replica = applySnapshot cB.replica snap
     ∧ (onBusMessage cB msgA nowA).2 = [])
    ∧ ((onBusMessage cA msgB nowB).1.isLeader = true
       ∧ (onBusMessage cA msgB nowB).1.leaderSince = t1
       ∧ (onBusMessage cA msgB nowB).1.client = cA.client
       ∧ (onBusMessage cA msgB nowB).1.replica = cA.replica
       ∧ (∃ m, (onBusMessage cA msgB nowB).2 = [m]
            ∧ m.type = .LEADER_ANNOUNCE ∧ m.leaderSince = some t1
            ∧ m.tabId = some cA.tabId ∧ m.currentState = none)) := by
  have hred : onBusMessage cB msgA nowA
      = (announceAdopt
          (stepDown { cB with lastLeaderTimestamp := jsOrTime msgA.timestamp nowA }
            msgA.tabId t1)
          msgA t1, []) := by
    unfold onBusMessage
    rw [if_neg (by simp [hA2])]
    simp only [hA1]
    rw [if_neg hA3]
    unfold onAnnounce
    simp only [hA4, jsOrTime, hBl, if_true, if_neg ht1]
    rw [hBs, if_pos hlt]
  have hstep := stepDown_char
    { cB with lastLeaderTimestamp := jsOrTime msgA.timestamp nowA } msgA.tabId t1 hBl
  have hadopt := announceAdopt_char
    (stepDown { cB with lastLeaderTimestamp := jsOrTime msgA.timestamp nowA } msgA.tabId t1)
    msgA t1 snap hA5
  have hred2 : onBusMessage cA msgB nowB
      = ({ cA with lastLeaderTimestamp := jsOrTime msgB.timestamp nowB },
         [mkAnnounce { cA with lastLeaderTimestamp := jsOrTime msgB.timestamp nowB }
            nowB none]) := by
    unfold onBusMessage
    rw [if_neg (by simp [hB2])]
    simp only [hB1]
    rw [if_neg hB3]
    unfold onAnnounce
    simp only [hB4, jsOrTime, hAl, if_true, if_neg ht2]
    rw [hAs, if_neg (Nat.not_lt.mpr (Nat.le_of_lt hlt))]
  constructor
  · rw [hred]
    refine ⟨hadopt.1, ?_, hadopt.2.1, hadopt.2.2.1, ?_, rfl⟩
    · rw [hadopt.2.2.2.1]
      exact hstep.2.1
    · rw [hadopt.2.2.2.2.1]
      exact congrArg (fun r => applySnapshot r snap) hstep.2.2.1
  · rw [hred2]
    refine ⟨hAl, hAs, rfl, rfl, ⟨_, rfl, rfl, ?_, rfl, rfl⟩⟩
    show some cA.leaderSince = some t1
    rw [hAs]

/-- Witness for C3 at concrete contexts: exLeaderCtx claimed at 1000200; it
receives exAnnounce (claim 999000 by tabB, with snapshot) and steps down; a
hypothetical older leader (claim 999000) receiving the 1000200 claim ignores
it and re-announces. -/
theorem C3_split_brain_oldest_claim_wins_witness :
    (onBusMessage exLeaderCtx exAnnounce 1000300).1.isLeader = false
    ∧ (onBusMessage exLeaderCtx exAnnounce 1000300).1.client = none
    ∧ (onBusMessage
        { (startContext "s1" "staff" "tabB" true 1000000).1 with
            isLeader := true, leaderSince := 999000 }
        (mkAnnounce exLeaderCtx 1000300 none) 1000300).1.isLeader = true := by
  have h := C3_split_brain_oldest_claim_wins
    { (startContext "s1" "staff" "tabB" true 1000000).1 with
        isLeader := true, leaderSince := 999000 }
    exLeaderCtx
    exAnnounce (mkAnnounce exLeaderCtx 1000300 none) exSnapshot
    999000 1000200 1000300 1000300
    rfl rfl rfl rfl (by decide) rfl (by decide) rfl (by decide)
    rfl rfl rfl rfl (by decide) rfl (by decide)
  exact ⟨h.1.1, h.1.2.1, h.2.1⟩

/-! Machinery for the single-connection safety invariant (C5). -/

theorem connInv_of_fields (c c' : Ctx) (h : ConnInv c)
    (h1 : c'.client = c.client) (h2 : c'.conns = c.conns)
    (h3 : c'.nextConnId = c.nextConnId) : ConnInv c' := by
  refine ⟨?_, ?_, ?_⟩
  · rw [h2, h3]
    exact h.bound
  · rw [h2]
    exact h.nodup
  · rw [h2, h1]
    exact h.openOne

theorem connInv_createAbly (c : Ctx) (h : ConnInv c) : ConnInv (createAblyConnection c) := by
  unfold createAblyConnection
  split
  · exact h
  · rename_i hns
    have hnone : c.client = none := Option.not_isSome_iff_eq_none.mp hns
    refine ⟨?_, ?_, ?_⟩
    · intro p hp
      rcases List.mem_append.mp hp with hin | hin
      · exact Nat.lt_succ_of_lt (h.bound p hin)
      · rw [List.mem_singleton.mp hin]
        exact Nat.lt_succ_self _
    · simp only [List.map_append, List.map_cons, List.map_nil]
      rw [List.nodup_append]
      refine ⟨h.nodup, List.nodup_singleton _, ?_⟩
      intro a ha hb
      rw [List.mem_singleton.mp hb] at ha
      obtain ⟨p, hp, hfst⟩ := List.mem_map.mp ha
      have := h.bound p hp
      rw [hfst] at this
      exact Nat.lt_irrefl _ this
    · intro p hp hop
      rcases List.mem_append.mp hp with hin | hin
      · have := h.openOne p hin hop
        rw [hnone] at this
        cases this
      · rw [List.mem_singleton.mp hin]

theorem connInv_closeClient (c : Ctx) (h : ConnInv c) : ConnInv (closeClient c) := by
  unfold closeClient
  cases hcl : c.client with
  | none => exact h
  | some cid =>
    refine ⟨?_, ?_, ?_⟩
    · intro p hp
      obtain ⟨q, hq, hgq⟩ := List.mem_map.mp hp
      have hq1 : p.1 = q.1 := by
        by_cases hc : q.1 = cid <;> simp [hc] at hgq <;> rw [← hgq]
        exact hc.symm
      rw [hq1]
      exact h.bound q hq
    · have hmap : (c.conns.map fun p => if p.1 = cid then (p.1, false) else p).map Prod.fst
          = c.conns.map Prod.fst := by
        rw [List.map_map]
        apply List.map_congr_left
        intro p _
        by_cases hc : p.1 = cid <;> simp [hc]
      rw [hmap]
      exact h.nodup
    · intro p hp hop
      obtain ⟨q, hq, hgq⟩ := List.mem_map.mp hp
      by_cases hc : q.1 = cid
      · rw [if_pos hc] at hgq
        rw [← hgq] at hop
        cases hop
      · rw [if_neg hc] at hgq
        rw [← hgq] at hop
        have := h.openOne q hq hop
        rw [hcl] at this
        exact absurd (Option.some.inj this).symm hc

theorem connInv_startHealth (c : Ctx) (h : ConnInv c) : ConnInv (startLeaderHealthCheck c) := by
  unfold startLeaderHealthCheck
  split
  · exact h
  · exact connInv_of_fields c _ h rfl rfl rfl

theorem connInv_becomeLeader (c : Ctx) (now : Timestamp) (h : ConnInv c) :
    ConnInv (becomeLeader c now) := by
  unfold becomeLeader
  split
  · exact h
  · split
    · exact h
    · exact connInv_createAbly _ (connInv_of_fields c _ h rfl rfl rfl)

theorem connInv_stepDown (c : Ctx) (a : Option TabId) (b : Timestamp) (h : ConnInv c) :
    ConnInv (stepDown c a b) := by
  unfold stepDown
  split
  · exact h
  · exact connInv_startHealth _ (connInv_closeClient _ (connInv_of_fields c _ h rfl rfl rfl))

theorem handleAbly_connFields (c : Ctx) (e : AblyEvent) (now : Timestamp) :
    (handleAblyMessage c e now).client = c.client
    ∧ (handleAblyMessage c e now).conns = c.conns
    ∧ (handleAblyMessage c e now).nextConnId = c.nextConnId := by
  unfold handleAblyMessage
  split
  · exact ⟨rfl, rfl, rfl⟩
  · split <;> exact ⟨rfl, rfl, rfl⟩

theorem foldl_handleAbly_connFields (L : List BufferedEvent) (c : Ctx) (now : Timestamp) :
    (L.foldl (fun c m => handleAblyMessage c m.ev now) c).client = c.client
    ∧ (L.foldl (fun c m => handleAblyMessage c m.ev now) c).conns = c.conns
    ∧ (L.foldl (fun c m => handleAblyMessage c m.ev now) c).nextConnId = c.nextConnId := by
  induction L generalizing c with
  | nil => exact ⟨rfl, rfl, rfl⟩
  | cons a L ih =>
    simp only [List.foldl_cons]
    obtain ⟨h1, h2, h3⟩ := ih (handleAblyMessage c a.ev now)
    obtain ⟨g1, g2, g3⟩ := handleAbly_connFields c a.ev now
    exact ⟨h1.trans g1, h2.trans g2, h3.trans g3⟩

theorem connInv_processBufferedMessages (c : Ctx) (now : Timestamp) (h : ConnInv c) :
    ConnInv (processBufferedMessages c now) := by
  unfold processBufferedMessages
  obtain ⟨h1, h2, h3⟩ := foldl_handleAbly_connFields c.messageBuffer
    { c with messageBuffer := [], isInFailover := false } now
  exact connInv_of_fields _ _ (connInv_of_fields c _ h rfl rfl rfl) h1 h2 h3

theorem announceAdopt_connFields (c : Ctx) (msg : TabMessage) (ns : Timestamp) :
    (announceAdopt c msg ns).client = c.client
    ∧ (announceAdopt c msg ns).conns = c.conns
    ∧ (announceAdopt c msg ns).nextConnId = c.nextConnId := by
  unfold announceAdopt startLeaderHealthCheck
  cases msg.currentState <;> by_cases hf : c.isInFailover <;> simp [hf]

theorem connInv_onAnnounce (c : Ctx) (msg : TabMessage) (now : Timestamp) (h : ConnInv c) :
    ConnInv (onAnnounce c msg now).1 := by
  unfold onAnnounce
  have h0 : ConnInv { c with lastLeaderTimestamp := jsOrTime msg.timestamp now } :=
    connInv_of_fields c _ h rfl rfl rfl
  dsimp only
  split
  · split
    · obtain ⟨a1, a2, a3⟩ := announceAdopt_connFields
        (stepDown { c with lastLeaderTimestamp := jsOrTime msg.timestamp now } msg.tabId
          (jsOrTime msg.leaderSince now)) msg (jsOrTime msg.leaderSince now)
      exact connInv_of_fields _ _ (connInv_stepDown _ _ _ h0) a1 a2 a3
    · exact h0
  · obtain ⟨a1, a2, a3⟩ := announceAdopt_connFields
      { c with lastLeaderTimestamp := jsOrTime msg.timestamp now } msg
      (jsOrTime msg.leaderSince now)
    exact connInv_of_fields _ _ h0 a1 a2 a3

theorem connInv_onBusMessage (c : Ctx) (msg : TabMessage) (now : Timestamp) (h : ConnInv c) :
    ConnInv (onBusMessage c msg now).1 := by
  unfold onBusMessage
  split
  · exact h
  · split
    · split
      · obtain ⟨h1, h2, h3⟩ := handleAbly_connFields c _ now
        exact connInv_of_fields c _ h h1 h2 h3
      · exact h
    · split
      · exact h
      · exact connInv_onAnnounce c msg now h
    · split
      · exact h
      · exact h
    · split
      · exact h
      · exact h
    · split
      · exact h
      · exact connInv_of_fields c _ h rfl rfl rfl
    · split
      · exact h
      · exact connInv_of_fields c _ h rfl rfl rfl
    · split
      · split
        · exact connInv_of_fields c _ h rfl rfl rfl
        · exact h
      · exact h

theorem connInv_leaderCheckFire (c : Ctx) (now : Timestamp) (h : ConnInv c) :
    ConnInv (leaderCheckFire c now) := by
  unfold leaderCheckFire
  split
  · exact h
  · dsimp only
    split
    · exact connInv_of_fields c _ h rfl rfl rfl
    · exact connInv_becomeLeader _ _ (connInv_of_fields c _ h rfl rfl rfl)

theorem connInv_pingFire (c : Ctx) (h : ConnInv c) : ConnInv (pingFire c).1 := by
  unfold pingFire
  split
  · exact h
  · split
    · exact h
    · exact connInv_of_fields c _ h rfl rfl rfl

theorem connInv_pongTimeoutFire (c : Ctx) (now : Timestamp) (h : ConnInv c) :
    ConnInv (pongTimeoutFire c now) := by
  unfold pongTimeoutFire
  split
  · exact h
  · dsimp only
    split
    · exact connInv_of_fields c _ h rfl rfl rfl
    · exact connInv_of_fields c _ h rfl rfl rfl

theorem connInv_electionFire (c : Ctx) (now : Timestamp) (h : ConnInv c) :
    ConnInv (electionFire c now).1 := by
  unfold electionFire
  split
  · exact h
  · dsimp only
    split
    · exact connInv_of_fields c _ h rfl rfl rfl
    · exact connInv_of_fields c _ h rfl rfl rfl

theorem connInv_promoteFire (c : Ctx) (now : Timestamp) (h : ConnInv c) :
    ConnInv (promoteFire c now) := by
  unfold promoteFire
  split
  · exact h
  · dsimp only
    split
    · exact connInv_of_fields c _ h rfl rfl rfl
    · exact connInv_becomeLeader _ _ (connInv_of_fields c _ h rfl rfl rfl)

theorem connInv_processBufferedFire (c : Ctx) (now : Timestamp) (h : ConnInv c) :
    ConnInv (processBufferedFire c now) := by
  unfold processBufferedFire
  split
  · exact h
  · exact connInv_processBufferedMessages _ now (connInv_of_fields c _ h rfl rfl rfl)

theorem connInv_fetchCompleted (c : Ctx) (data : StatePayload) (h : ConnInv c) :
    ConnInv (fetchCompleted c data) := by
  unfold fetchCompleted
  split
  · exact h
  · exact connInv_of_fields c _ h rfl rfl rfl

theorem connInv_onConnected (c : Ctx) (now : Timestamp) (h : ConnInv c) :
    ConnInv (onConnected c now).1 := by
  unfold onConnected
  split
  · exact h
  · dsimp only
    split <;> split <;> exact connInv_of_fields c _ h rfl rfl rfl

theorem connInv_onConnDisconnected (c : Ctx) (h : ConnInv c) :
    ConnInv (onConnDisconnected c) := by
  unfold onConnDisconnected
  split
  · exact h
  · exact connInv_of_fields c _ h rfl rfl rfl

theorem connInv_onConnFailed (c : Ctx) (h : ConnInv c) : ConnInv (onConnFailed c) := by
  unfold onConnFailed
  split
  · exact h
  · exact connInv_of_fields c _ h rfl rfl rfl

theorem connInv_onUpstreamMessage (c : Ctx) (e : AblyEvent) (now : Timestamp) (h : ConnInv c) :
    ConnInv (onUpstreamMessage c e now).1 := by
  unfold onUpstreamMessage
  split
  · exact h
  · obtain ⟨h1, h2, h3⟩ := handleAbly_connFields c e now
    dsimp only
    split
    · exact connInv_of_fields c _ h h1 h2 h3
    · exact connInv_of_fields c _ h h1 h2 h3

theorem connInv_cleanup (c : Ctx) (h : ConnInv c) : ConnInv (cleanup c).1 := by
  unfold cleanup
  dsimp only
  have h1 : ConnInv ({ c with isMounted := false, leaderCheckAt := none, pingIntervalArmed := false, pongTimeoutArmed := false } : Ctx) :=
    connInv_of_fields c _ h rfl rfl rfl
  have h2 := connInv_closeClient _ h1
  exact connInv_of_fields _ _ h2 rfl rfl rfl

theorem connInv_step (c : Ctx) (l : Label) (h : ConnInv c) : ConnInv (step c l).1 := by
  cases l with
  | busMsg m now =>
    show ConnInv (if c.hasBus then onBusMessage c m now else (c, [])).1
    split
    · exact connInv_onBusMessage c m now h
    · exact h
  | upstream e now => exact connInv_onUpstreamMessage c e now h
  | connected now => exact connInv_onConnected c now h
  | disconnected => exact connInv_onConnDisconnected c h
  | connFailed => exact connInv_onConnFailed c h
  | leaderCheck now => exact connInv_leaderCheckFire c now h
  | ping => exact connInv_pingFire c h
  | pongTimeout now => exact connInv_pongTimeoutFire c now h
  | election now => exact connInv_electionFire c now h
  | promote now => exact connInv_promoteFire c now h
  | processBuffered now => exact connInv_processBufferedFire c now h
  | fetchDone data => exact connInv_fetchCompleted c data h
  | unmount => exact connInv_cleanup c h

theorem connInv_baseCtx (sid role tid : String) (hb : Bool) :
    ConnInv (baseCtx sid role tid hb) := by
  refine ⟨?_, ?_, ?_⟩ <;> simp [baseCtx]

theorem connInv_startContext (sid role tid : String) (hb : Bool) (t0 : Timestamp) :
    ConnInv (startContext sid role tid hb t0).1 := by
  unfold startContext
  split
  · exact connInv_of_fields _ _ (connInv_baseCtx sid role tid hb) rfl rfl rfl
  · exact connInv_becomeLeader _ _ (connInv_baseCtx sid role tid hb)

theorem connInv_reachable (c : Ctx) (h : Reachable c) : ConnInv c := by
  induction h with
  | init sid role tid hb t0 => exact connInv_startContext sid role tid hb t0
  | next c l _ ih => exact connInv_step c l ih

theorem nodup_keys_eq {l : List (Nat × Bool)} (h : (l.map Prod.fst).Nodup)
    {p q : Nat × Bool} (hp : p ∈ l) (hq : q ∈ l) (he : p.1 = q.1) : p = q :=
  List.inj_on_of_nodup_map h hp hq he

/-- C5: in every reachable state of a single context, the context holds at most
one open upstream connection — any two still-open connection records coincide —
and the mechanisms that keep this true hold: createAblyConnection is a no-op
while a client object exists, stepDown (for a leader) closes the client, and
the unmount cleanup closes the client. -/
theorem C5_single_upstream_connection (c : Ctx) (h : Reachable c) :
    (∀ p ∈ c.conns, p.2 = true → ∀ q ∈ c.conns, q.2 = true → p = q)
    ∧ (c.client.isSome = true → createAblyConnection c = c)
    ∧ (∀ a b, c.isLeader = true → (stepDown c a b).client = none)
    ∧ (cleanup c).1.client = none := by
  have hinv := connInv_reachable c h
  refine ⟨?_, ?_, ?_, ?_⟩
  · intro p hp hpo q hq hqo
    have h1 := hinv.openOne p hp hpo
    have h2 := hinv.openOne q hq hqo
    rw [h1] at h2
    exact nodup_keys_eq hinv.nodup hp hq (Option.some.inj h2)
  · intro hs
    unfold createAblyConnection
    rw [if_pos hs]
  · intro a b hl
    exact (stepDown_char c a b hl).2.1
  · exact closeClient_client _

/-- Witness for C5 at the initial context of a freshly mounted provider. -/
theorem C5_single_upstream_connection_witness :
    (∀ p ∈ (startContext "s1" "staff" "tabA" true 0).1.conns, p.2 = true →
      ∀ q ∈ (startContext "s1" "staff" "tabA" true 0).1.conns, q.2 = true → p = q)
    ∧ (cleanup (startContext "s1" "staff" "tabA" true 0).1).1.client = none := by
  have h := C5_single_upstream_connection _ (Reachable.init "s1" "staff" "tabA" true 0)
  exact ⟨h.1, h.2.2.2⟩

end CC
